import Mathlib

/-!
Shallow embedding of the analytics pipeline of
`customer_churn_analysis.py` (customer-churn-analysis repository).

Raw rows are modelled as `Row`; `clean_data` mirrors the cleaning step of
the script (duplicate removal keeping first occurrences, the churn label
map, and the two `pd.cut` binnings).  Numeric columns are modelled as `ℚ`;
a float `NaN` produced by pandas/numpy is modelled as `none` in `Option ℚ`
(respectively a missing bin label as `none` in `Option String`).
-/

namespace ChurnAnalysis

/-- One raw input row, with exactly the columns the analysed claims touch. -/
structure Row where
  churn : String
  gender : String
  senior_citizen : Nat
  contract : String
  internet_service : String
  payment_method : String
  tenure_months : ℚ
  monthly_charges : ℚ
  deriving DecidableEq, Repr

/-- A cleaned row: the raw columns plus the three derived columns added by
`clean_data` (`churn_numeric`, `tenure_category`, `charges_category`).
`none` models a float/categorical `NaN`. -/
structure CleanRow extends Row where
  churn_numeric : Option ℚ
  tenure_category : Option String
  charges_category : Option String
  deriving DecidableEq, Repr

/-- Auxiliary for `dedupFirst`: keeps elements not seen before. -/
def dedupFirstAux {α : Type} [DecidableEq α] (seen : List α) : List α → List α
  | [] => []
  | x :: xs =>
    if x ∈ seen then dedupFirstAux seen xs else x :: dedupFirstAux (x :: seen) xs

/-- `df.drop_duplicates()`: removes later duplicates, first occurrence wins. -/
def dedupFirst {α : Type} [DecidableEq α] (l : List α) : List α :=
  dedupFirstAux [] l

/-- `pd.cut(x, bins, labels)` with the pandas defaults `right=True`,
`include_lowest=False`: `x` falls in bin `i` iff `bins[i] < x ≤ bins[i+1]`;
outside every bin the result is the missing label `NaN`, modelled `none`. -/
def pdCut (x : ℚ) : List ℚ → List String → Option String
  | lo :: hi :: bs, l :: ls =>
    if lo < x ∧ x ≤ hi then some l else pdCut x (hi :: bs) ls
  | _, _ => none

/-- The tenure binning of `clean_data`
(`pd.cut(df.tenure_months, bins=[0,12,24,48,72], labels=[...])`). -/
def tenure_category_of (x : ℚ) : Option String :=
  pdCut x [0, 12, 24, 48, 72]
    ["0-12 months", "12-24 months", "24-48 months", "48+ months"]

/-- The charges binning of `clean_data`
(`pd.cut(df.monthly_charges, bins=[0,50,75,100,150], labels=[...])`). -/
def charges_category_of (x : ℚ) : Option String :=
  pdCut x [0, 50, 75, 100, 150] ["Low", "Medium", "High", "Premium"]

/-- `df.churn.map({'Yes': 1, 'No': 0})`: exact, case-sensitive match;
any other label maps to `NaN` (`none`). -/
def churn_numeric_of (s : String) : Option ℚ :=
  if s = "Yes" then some 1 else if s = "No" then some 0 else none

/-- Per-row part of `clean_data`: attaches the three derived columns. -/
def clean_row (r : Row) : CleanRow :=
  { toRow := r
    churn_numeric := churn_numeric_of r.churn
    tenure_category := tenure_category_of r.tenure_months
    charges_category := charges_category_of r.monthly_charges }

/-- `clean_data`: drop duplicates (first occurrence wins), then add the
derived columns.  No row is excluded for any other reason and no issue
report is produced. -/
def clean_data (df : List Row) : List CleanRow :=
  (dedupFirst df).map clean_row

/-! Basic lemmas about deduplication and the binning function. -/

theorem mem_dedupFirstAux {α : Type} [DecidableEq α] (l : List α) (seen : List α)
    (x : α) : x ∈ dedupFirstAux seen l ↔ x ∈ l ∧ x ∉ seen := by
  induction l generalizing seen with
  | nil => simp [dedupFirstAux]
  | cons a as ih =>
    by_cases ha : a ∈ seen
    · simp only [dedupFirstAux, if_pos ha, ih, List.mem_cons]
      constructor
      · rintro ⟨hx, hs⟩
        exact ⟨Or.inr hx, hs⟩
      · rintro ⟨hx | hx, hs⟩
        · exact absurd (hx ▸ ha) hs
        · exact ⟨hx, hs⟩
    · simp only [dedupFirstAux, if_neg ha, List.mem_cons, ih]
      constructor
      · rintro (rfl | ⟨hx, hs⟩)
        · exact ⟨Or.inl rfl, ha⟩
        · exact ⟨Or.inr hx, fun hm => hs (Or.inr hm)⟩
      · rintro ⟨rfl | hx, hs⟩
        · exact Or.inl rfl
        · by_cases hxa : x = a
          · exact Or.inl hxa
          · exact Or.inr ⟨hx, fun hm => hm.elim hxa hs⟩

theorem mem_dedupFirst {α : Type} [DecidableEq α] (l : List α) (x : α) :
    x ∈ dedupFirst l ↔ x ∈ l := by
  simp [dedupFirst, mem_dedupFirstAux]

theorem tenure_bin1 {x : ℚ} (h0 : 0 < x) (h : x ≤ 12) :
    tenure_category_of x = some "0-12 months" := by
  simp only [tenure_category_of, pdCut]
  rw [if_pos ⟨h0, h⟩]

theorem tenure_bin2 {x : ℚ} (h0 : 12 < x) (h : x ≤ 24) :
    tenure_category_of x = some "12-24 months" := by
  simp only [tenure_category_of, pdCut]
  rw [if_neg (by rintro ⟨-, h'⟩; linarith), if_pos ⟨h0, h⟩]

theorem tenure_bin3 {x : ℚ} (h0 : 24 < x) (h : x ≤ 48) :
    tenure_category_of x = some "24-48 months" := by
  simp only [tenure_category_of, pdCut]
  rw [if_neg (by rintro ⟨-, h'⟩; linarith), if_neg (by rintro ⟨-, h'⟩; linarith),
    if_pos ⟨h0, h⟩]

theorem tenure_bin4 {x : ℚ} (h0 : 48 < x) (h : x ≤ 72) :
    tenure_category_of x = some "48+ months" := by
  simp only [tenure_category_of, pdCut]
  rw [if_neg (by rintro ⟨-, h'⟩; linarith), if_neg (by rintro ⟨-, h'⟩; linarith),
    if_neg (by rintro ⟨-, h'⟩; linarith), if_pos ⟨h0, h⟩]

theorem tenure_bin_none_high {x : ℚ} (h : 72 < x) : tenure_category_of x = none := by
  simp only [tenure_category_of, pdCut]
  rw [if_neg (by rintro ⟨-, h'⟩; linarith), if_neg (by rintro ⟨-, h'⟩; linarith),
    if_neg (by rintro ⟨-, h'⟩; linarith), if_neg (by rintro ⟨-, h'⟩; linarith)]

theorem charges_bin_none_high {x : ℚ} (h : 150 < x) : charges_category_of x = none := by
  simp only [charges_category_of, pdCut]
  rw [if_neg (by rintro ⟨-, h'⟩; linarith), if_neg (by rintro ⟨-, h'⟩; linarith),
    if_neg (by rintro ⟨-, h'⟩; linarith), if_neg (by rintro ⟨-, h'⟩; linarith)]

/-! Aggregation engine: pandas groupby means. -/

/-- Mean of a list of rationals; `none` models the NaN mean of an empty
list (pandas skips NaN entries before averaging, callers pass the entries
that survive that skip). -/
def optMean (xs : List ℚ) : Option ℚ :=
  if xs = [] then none else some (xs.sum / (xs.length : ℚ))

/-- Lexicographic less-or-equal on character-code lists: the tie-breaking
order in which pandas sorts string group keys. -/
def lexLe : List Char → List Char → Bool
  | [], _ => true
  | _ :: _, [] => false
  | a :: as, b :: bs =>
    if a.toNat < b.toNat then true
    else if b.toNat < a.toNat then false
    else lexLe as bs

/-- Lexicographic string order by character code. -/
def strLe (a b : String) : Bool := lexLe a.data b.data

theorem lexLe_total (a b : List Char) : lexLe a b = true ∨ lexLe b a = true := by
  induction a generalizing b with
  | nil => left; rfl
  | cons x xs ih =>
    cases b with
    | nil => right; rfl
    | cons y ys =>
      by_cases h1 : x.toNat < y.toNat
      · left; simp [lexLe, h1]
      by_cases h2 : y.toNat < x.toNat
      · right; simp [lexLe, h2, h1]
      · rcases ih ys with h | h
        · left; simp [lexLe, h1, h2, h]
        · right; simp [lexLe, h1, h2, h]

theorem lexLe_trans {a b c : List Char} (h1 : lexLe a b = true)
    (h2 : lexLe b c = true) : lexLe a c = true := by
  induction a generalizing b c with
  | nil => rfl
  | cons x xs ih =>
    cases b with
    | nil => simp [lexLe] at h1
    | cons y ys =>
      cases c with
      | nil => simp [lexLe] at h2
      | cons z zs =>
        simp only [lexLe] at h1 h2 ⊢
        split_ifs at h1 h2 ⊢ <;> first | rfl | omega | exact ih h1 h2

instance : IsTotal String (fun a b => strLe a b = true) :=
  ⟨fun a b => lexLe_total a.data b.data⟩

instance : IsTrans String (fun a b => strLe a b = true) :=
  ⟨fun _ _ _ => lexLe_trans⟩

/-- The distinct group keys in the order pandas `groupby` emits them:
ascending sorted order (`sort=True` is the pandas default). -/
def groupbyKeys (keys : List String) : List String :=
  List.insertionSort (fun a b => strLe a b = true) (dedupFirst keys)

/-- `df.groupby(key)['churn_numeric'].mean() * 100` as in
`demographic_analysis` / `service_analysis`: for each distinct key in
ascending order, the mean churn rate (percent) of that group, skipping
NaN churn_numeric entries. -/
def groupby_rate (key : CleanRow → String) (df : List CleanRow) :
    List (String × Option ℚ) :=
  (groupbyKeys (df.map key)).map fun k =>
    (k, (optMean ((df.filter fun r => key r = k).filterMap
          fun r => r.churn_numeric)).map (· * 100))

/-- Modelled from the spec: the same aggregation but with the per-group
results in order of first appearance of each distinct key in the Dataset
("preserving the order of first appearance of each distinct key
combination"), for comparison with `groupby_rate`. -/
def aggregate_spec_order (key : CleanRow → String) (df : List CleanRow) :
    List (String × Option ℚ) :=
  (dedupFirst (df.map key)).map fun k =>
    (k, (optMean ((df.filter fun r => key r = k).filterMap
          fun r => r.churn_numeric)).map (· * 100))

/-! Statistical test suite. -/

/-- The monthly charges of churned rows (`df[df.churn == 'Yes'].monthly_charges`). -/
def churnedCharges (df : List CleanRow) : List ℚ :=
  (df.filter fun r => r.churn = "Yes").map fun r => r.monthly_charges

/-- The monthly charges of retained rows (`df[df.churn == 'No'].monthly_charges`). -/
def retainedCharges (df : List CleanRow) : List ℚ :=
  (df.filter fun r => r.churn = "No").map fun r => r.monthly_charges

/-- Sample mean of a list (the guard against an empty list lives at use sites). -/
def mean (xs : List ℚ) : ℚ := xs.sum / (xs.length : ℚ)

/-- Unbiased sample variance (ddof = 1), as used inside `scipy.stats.ttest_ind`. -/
def sampleVar (xs : List ℚ) : ℚ :=
  ((xs.map fun x => (x - mean xs) ^ 2).sum) / ((xs.length : ℚ) - 1)

/-- Squared denominator of `scipy.stats.ttest_ind` with its default
`equal_var=True`: the pooled variance `((n1-1)v1 + (n2-1)v2)/(n1+n2-2)`
times `(1/n1 + 1/n2)`. -/
def pooledDenomSq (a b : List ℚ) : ℚ :=
  (((a.length : ℚ) - 1) * sampleVar a + ((b.length : ℚ) - 1) * sampleVar b) /
      ((a.length : ℚ) + (b.length : ℚ) - 2) *
    (1 / (a.length : ℚ) + 1 / (b.length : ℚ))

/-- The squared t statistic of `scipy.stats.ttest_ind(a, b)` with the
default `equal_var=True`, which is what line 224 calls.  A sample with
fewer than 2 points makes the ddof-1 variance NaN and hence the whole
statistic NaN; a zero pooled denominator gives NaN or an infinity; those
non-numeric outcomes are modelled as `none`.  The sign of the statistic
is `sign (mean a - mean b)`, so the squared value together with the two
means determines it. -/
def ttestStatSq (a b : List ℚ) : Option ℚ :=
  if a.length < 2 ∨ b.length < 2 then none
  else if pooledDenomSq a b = 0 then none
  else some ((mean a - mean b) ^ 2 / pooledDenomSq a b)

/-- Modelled from the spec: the squared statistic of Welch's
unequal-variance two-sample test, whose denominator is `v1/n1 + v2/n2`
(the spec mandates this formulation for the mean-difference test). -/
def welchStatSq (a b : List ℚ) : Option ℚ :=
  if a.length < 2 ∨ b.length < 2 then none
  else if sampleVar a / (a.length : ℚ) + sampleVar b / (b.length : ℚ) = 0 then none
  else some ((mean a - mean b) ^ 2 /
    (sampleVar a / (a.length : ℚ) + sampleVar b / (b.length : ℚ)))

/-- Modelled from the spec's wording for the equal-variance Student
formulation, written in the textbook shape
`t² = (m1-m2)² · n1·n2·(n1+n2-2) / ((n1+n2) · ((n1-1)s1² + (n2-1)s2²))`. -/
def studentStatSqSpec (a b : List ℚ) : ℚ :=
  (mean a - mean b) ^ 2 *
      ((a.length : ℚ) * (b.length : ℚ) * ((a.length : ℚ) + (b.length : ℚ) - 2)) /
    (((a.length : ℚ) + (b.length : ℚ)) *
      (((a.length : ℚ) - 1) * sampleVar a + ((b.length : ℚ) - 1) * sampleVar b))

/-- The significance check `statistical_tests` applies to each computed
p-value (lines 229 and 242): strictly `p < 0.05`. -/
def significanceFlag (p : ℚ) : Bool := decide (p < (0.05 : ℚ))

/-- The significance reporting of `statistical_tests` as a function of the
two p-values scipy returns: the t-test and the chi-square test each get
the flag `p < 0.05`; the two correlation computations (lines 248-253)
report only a coefficient and carry no significance flag at all. -/
def statistical_tests_flags (p_t p_chi : ℚ) : List (String × Option Bool) :=
  [("t_test", some (significanceFlag p_t)),
   ("chi_square", some (significanceFlag p_chi)),
   ("correlation_tenure", none),
   ("correlation_charges", none)]

/-- `pd.crosstab(df.contract, df.churn)` (line 235): per contract value in
ascending order, the count of rows for each churn label in ascending
order. -/
def contingencyTable (df : List CleanRow) : List (String × List (String × ℕ)) :=
  (groupbyKeys (df.map fun r => r.contract)).map fun c =>
    (c, (groupbyKeys (df.map fun r => r.churn)).map fun ch =>
      (ch, (df.filter fun r => r.contract = c ∧ r.churn = ch).length))

/-- The computation stage of `statistical_tests`: the t statistic over the
two charge samples and the contingency table of the chi-square test.  The
function is total: a degenerate sample yields a NaN (`none`) statistic and
the remaining computations still happen — there is no exception path. -/
def statistical_tests_run (df : List CleanRow) :
    Option ℚ × List (String × List (String × ℕ)) :=
  (ttestStatSq (churnedCharges df) (retainedCharges df), contingencyTable df)

/-! Churn-rate reporting and the revenue calculations. -/

/-- Lines 110-127 (`churn_analysis`): `value_counts` key lookup of the
labels 'No' and 'Yes' raises KeyError when the label is absent (in
particular on an empty Dataset); otherwise the overall churn rate in
percent is returned. -/
def churn_analysis (df : List CleanRow) : Except String ℚ :=
  if (df.filter fun r => r.churn = "No").length = 0 then .error "KeyError"
  else if (df.filter fun r => r.churn = "Yes").length = 0 then .error "KeyError"
  else .ok (((df.filter fun r => r.churn = "Yes").length : ℚ) / (df.length : ℚ) * 100)

/-- Line 202: monthly revenue at risk, the sum of monthly_charges over
churned rows. -/
def revenue_at_risk (df : List CleanRow) : ℚ := (churnedCharges df).sum

/-- Line 203: total monthly revenue over all rows. -/
def total_revenue (df : List CleanRow) : ℚ :=
  (df.map fun r => r.monthly_charges).sum

/-- Line 206: revenue at risk as a percentage of the total; float division
by a zero total yields NaN (0/0) or an infinity, modelled `none`. -/
def revenue_pct (df : List CleanRow) : Option ℚ :=
  if total_revenue df = 0 then none
  else some (revenue_at_risk df / total_revenue df * 100)

/-- Line 430: churn rate (percent) over the new-customer subset
(tenure_months ≤ 12); the mean of an empty subset is NaN (`none`). -/
def new_customer_churn (df : List CleanRow) : Option ℚ :=
  (optMean ((df.filter fun r => r.tenure_months ≤ 12).filterMap
    fun r => r.churn_numeric)).map (· * 100)

/-- Line 494: mean monthly charges over churned rows; NaN when there are
none. -/
def avg_monthly_churned (df : List CleanRow) : Option ℚ :=
  optMean (churnedCharges df)

/-- Line 495: number of churned rows. -/
def churned_count (df : List CleanRow) : ℕ :=
  (df.filter fun r => r.churn = "Yes").length

/-- Line 496: estimated monthly revenue loss = mean × count (NaN when no
row churned). -/
def monthly_revenue_loss (df : List CleanRow) : Option ℚ :=
  (avg_monthly_churned df).map (· * (churned_count df : ℚ))

/-- Line 497: projected annual revenue loss = monthly loss × 12. -/
def annual_revenue_loss (df : List CleanRow) : Option ℚ :=
  (monthly_revenue_loss df).map (· * 12)

/-! Concrete rows used as counterexample inputs. -/

/-- A row whose churn label is lowercase, thus neither "Yes" nor "No". -/
def rowInvalidLabel : Row :=
  { churn := "yes", gender := "Male", senior_citizen := 0,
    contract := "Month-to-month", internet_service := "DSL",
    payment_method := "Electronic check", tenure_months := 5,
    monthly_charges := 70 }

/-- A row whose tenure (80 > 72) and charges (200 > 150) are out of range. -/
def rowOutOfRange : Row :=
  { churn := "Yes", gender := "Female", senior_citizen := 1,
    contract := "Two year", internet_service := "Fiber optic",
    payment_method := "Mailed check", tenure_months := 80,
    monthly_charges := 200 }

/-! Claim C1: tenure binning. -/

/-- C1 counterexample: the code bins with right-closed intervals, so
tenure 12 lands in "0-12 months" (not "12-24 months" as claimed) and
tenure 0 falls outside every bin (missing bucket), so binning is not
total on the closed range 0 to 72. -/
theorem C1_counterexample :
    tenure_category_of 12 = some "0-12 months" ∧ tenure_category_of 0 = none := by
  constructor <;> rfl

/-- C1 (amended): for tenure strictly between 0 and 72 inclusive, binning is
total and assigns exactly one bucket; a value exactly at a boundary belongs
to the lower of the two adjoining buckets (12 maps to "0-12 months"); 0
itself receives no bucket. -/
theorem C1_theorem (x : ℚ) (h0 : 0 < x) (h72 : x ≤ 72) :
    tenure_category_of x =
      some (if x ≤ 12 then "0-12 months" else if x ≤ 24 then "12-24 months"
            else if x ≤ 48 then "24-48 months" else "48+ months") := by
  rcases le_or_lt x 12 with h | h
  · rw [if_pos h]
    exact tenure_bin1 h0 h
  rcases le_or_lt x 24 with h' | h'
  · rw [if_neg (by linarith), if_pos h']
    exact tenure_bin2 h h'
  rcases le_or_lt x 48 with h'' | h''
  · rw [if_neg (by linarith), if_neg (by linarith), if_pos h'']
    exact tenure_bin3 h' h''
  · rw [if_neg (by linarith), if_neg (by linarith), if_neg (by linarith)]
    exact tenure_bin4 h'' h72

/-- C1 witness: the amended statement evaluated at tenure 30. -/
theorem C1_witness : tenure_category_of 30 = some "24-48 months" := by
  have h := C1_theorem 30 (by norm_num) (by norm_num)
  simpa using h

/-! Claim C4: churn-label mapping. -/

/-- C4 counterexample: a row labelled "yes" is kept in the cleaned data
(with missing churn_numeric), not excluded, and no issue record of any
kind exists in the code. -/
theorem C4_counterexample :
    (clean_data [rowInvalidLabel]).map (fun c => (c.toRow.churn, c.churn_numeric)) =
      [("yes", (none : Option ℚ))] := by
  rfl

/-- C4 (amended): the churn label is mapped by exact, case-sensitive match
on "Yes"/"No"; any other label yields a missing (NaN) churn_numeric, and
the row is still included in the cleaned Dataset — no row is excluded for
an invalid label and no DataQualityIssue is produced (the code has no
issue reporting at all). -/
theorem C4_theorem (df : List Row) (r : Row) (h : r ∈ df) :
    ∃ c ∈ clean_data df, c.toRow = r ∧
      c.churn_numeric =
        (if r.churn = "Yes" then some 1 else if r.churn = "No" then some 0
         else none) :=
  ⟨clean_row r, List.mem_map_of_mem clean_row ((mem_dedupFirst df r).2 h),
    rfl, rfl⟩

/-- C4 witness: the amended statement at the concrete lowercase-label row. -/
theorem C4_witness :
    ∃ c ∈ clean_data [rowInvalidLabel], c.toRow = rowInvalidLabel ∧
      c.churn_numeric =
        (if rowInvalidLabel.churn = "Yes" then some 1
         else if rowInvalidLabel.churn = "No" then some 0 else none) :=
  C4_theorem [rowInvalidLabel] rowInvalidLabel (by simp)

/-! Claim C5: out-of-range tenure/charges. -/

/-- C5 counterexample: a row with tenure 80 and charges 200 is kept in the
cleaned data with missing (NaN) bucket labels — the bucket is never the
string "unknown", and no out_of_range issue record exists in the code. -/
theorem C5_counterexample :
    (clean_data [rowOutOfRange]).map
        (fun c => (c.tenure_category, c.charges_category)) =
      [((none : Option String), (none : Option String))] := by
  rfl

/-- C5 (amended): a record with tenure_months > 72 (resp. monthly_charges
> 150) is still included in the cleaned Dataset and its tenure (resp.
charges) bucket is the missing value NaN — not the string "unknown" — and
no DataQualityIssue is produced; the cleaning step is a total function, so
the pipeline does not crash on such records. -/
theorem C5_theorem (df : List Row) (r : Row) (h : r ∈ df) :
    ∃ c ∈ clean_data df, c.toRow = r ∧
      (72 < r.tenure_months → c.tenure_category = none) ∧
      (150 < r.monthly_charges → c.charges_category = none) :=
  ⟨clean_row r, List.mem_map_of_mem clean_row ((mem_dedupFirst df r).2 h),
    rfl, fun h72 => tenure_bin_none_high h72,
    fun h150 => charges_bin_none_high h150⟩

/-- C5 witness: the amended statement at the concrete out-of-range row. -/
theorem C5_witness :
    ∃ c ∈ clean_data [rowOutOfRange], c.toRow = rowOutOfRange ∧
      (72 < rowOutOfRange.tenure_months → c.tenure_category = none) ∧
      (150 < rowOutOfRange.monthly_charges → c.charges_category = none) :=
  C5_theorem [rowOutOfRange] rowOutOfRange (by simp)

/-! More concrete inputs, used by the remaining claims. -/

/-- A churned male customer; appears before `rowFemale` in the raw data. -/
def rowMale : Row :=
  { churn := "Yes", gender := "Male", senior_citizen := 0,
    contract := "Month-to-month", internet_service := "DSL",
    payment_method := "Electronic check", tenure_months := 5,
    monthly_charges := 70 }

/-- A retained female customer; appears after `rowMale` in the raw data. -/
def rowFemale : Row :=
  { churn := "No", gender := "Female", senior_citizen := 0,
    contract := "One year", internet_service := "DSL",
    payment_method := "Mailed check", tenure_months := 15,
    monthly_charges := 40 }

/-- A second retained customer on a two-year contract. -/
def rowTwoYear : Row :=
  { churn := "No", gender := "Female", senior_citizen := 1,
    contract := "Two year", internet_service := "Fiber optic",
    payment_method := "Credit card", tenure_months := 60,
    monthly_charges := 20 }

/-- A sample whose churned subsample has a single observation. -/
def rowsSmallSample : List Row := [rowMale, rowFemale, rowTwoYear]

/-- A single retained row: a Dataset with no churned record at all. -/
def rowRetainedOnly : Row :=
  { churn := "No", gender := "Male", senior_citizen := 0,
    contract := "One year", internet_service := "DSL",
    payment_method := "Credit card", tenure_months := 20,
    monthly_charges := 10 }

/-- The 4-record example Dataset of the spec, after cleaning. -/
def exampleDataset : List CleanRow :=
  clean_data
    [{ churn := "Yes", gender := "Female", senior_citizen := 0,
       contract := "Month-to-month", internet_service := "DSL",
       payment_method := "Electronic check", tenure_months := 5,
       monthly_charges := 70 },
     { churn := "No", gender := "Male", senior_citizen := 0,
       contract := "One year", internet_service := "DSL",
       payment_method := "Mailed check", tenure_months := 15,
       monthly_charges := 40 },
     { churn := "Yes", gender := "Male", senior_citizen := 1,
       contract := "Month-to-month", internet_service := "Fiber optic",
       payment_method := "Electronic check", tenure_months := 30,
       monthly_charges := 90 },
     { churn := "No", gender := "Female", senior_citizen := 0,
       contract := "Two year", internet_service := "No",
       payment_method := "Credit card", tenure_months := 60,
       monthly_charges := 20 }]

/-! Claim C2: which two-sample formulation the t-test uses. -/

/-- C2 counterexample: on the samples (0, 6) and (0, 0, 3) the code's
statistic (scipy default, pooled variance) has square 3/5 while Welch's
statistic has square 2/5 — the code does not compute Welch's test. -/
theorem C2_counterexample :
    ttestStatSq [0, 6] [0, 0, 3] = some (3 / 5) ∧
      welchStatSq [0, 6] [0, 0, 3] = some (2 / 5) ∧
      ttestStatSq [0, 6] [0, 0, 3] ≠ welchStatSq [0, 6] [0, 0, 3] := by
  have e1 : ttestStatSq [0, 6] [0, 0, 3] = some (3 / 5) := by
    norm_num [ttestStatSq, pooledDenomSq, sampleVar, mean]
  have e2 : welchStatSq [0, 6] [0, 0, 3] = some (2 / 5) := by
    norm_num [welchStatSq, sampleVar, mean]
  refine ⟨e1, e2, ?_⟩
  rw [e1, e2]
  norm_num

/-- C2 (amended): the mean-difference test uses the equal-variance Student
(pooled) two-sample formulation — scipy's `ttest_ind` default — whose
squared statistic equals the textbook pooled form, not Welch's
unequal-variance formulation. -/
theorem C2_theorem (a b : List ℚ) (h1 : 2 ≤ a.length) (h2 : 2 ≤ b.length)
    (hv : ((a.length : ℚ) - 1) * sampleVar a +
        ((b.length : ℚ) - 1) * sampleVar b ≠ 0) :
    ttestStatSq a b = some (studentStatSqSpec a b) := by
  have hn1 : (2 : ℚ) ≤ (a.length : ℚ) := by exact_mod_cast h1
  have hn2 : (2 : ℚ) ≤ (b.length : ℚ) := by exact_mod_cast h2
  have ha0 : ((a.length : ℚ)) ≠ 0 := by intro h; rw [h] at hn1; linarith
  have hb0 : ((b.length : ℚ)) ≠ 0 := by intro h; rw [h] at hn2; linarith
  have hdf : (a.length : ℚ) + (b.length : ℚ) - 2 ≠ 0 := by
    intro h; nlinarith
  have hab : (a.length : ℚ) + (b.length : ℚ) ≠ 0 := by
    intro h; nlinarith
  have hp1 : (0 : ℚ) < 1 / (a.length : ℚ) := by
    apply one_div_pos.mpr; linarith
  have hp2 : (0 : ℚ) < 1 / (b.length : ℚ) := by
    apply one_div_pos.mpr; linarith
  have hinv : 1 / (a.length : ℚ) + 1 / (b.length : ℚ) ≠ 0 := by
    intro h; nlinarith
  have hpool : pooledDenomSq a b ≠ 0 := by
    unfold pooledDenomSq
    exact mul_ne_zero (div_ne_zero hv hdf) hinv
  have hlen : ¬(a.length < 2 ∨ b.length < 2) := by omega
  unfold ttestStatSq
  rw [if_neg hlen, if_neg hpool]
  congr 1
  unfold pooledDenomSq studentStatSqSpec
  field_simp
  ring

/-- C2 witness: the amended statement on the concrete samples. -/
theorem C2_witness :
    2 ≤ ([0, 6] : List ℚ).length ∧
      ttestStatSq [0, 6] [0, 0, 3] = some (studentStatSqSpec [0, 6] [0, 0, 3]) :=
  ⟨by decide, C2_theorem [0, 6] [0, 0, 3] (by decide) (by decide)
    (by norm_num [sampleVar, mean])⟩

/-! Claim C3: group order of the aggregations. -/

/-- C3 counterexample: with a male row first and a female row second, the
code's grouped output lists "Female" before "Male" (sorted), not the
first-appearance order "Male", "Female" demanded by the claim. -/
theorem C3_counterexample :
    (groupby_rate (fun r => r.gender) (clean_data [rowMale, rowFemale])).map
        Prod.fst = ["Female", "Male"] ∧
      (aggregate_spec_order (fun r => r.gender)
          (clean_data [rowMale, rowFemale])).map Prod.fst = ["Male", "Female"] ∧
      groupby_rate (fun r => r.gender) (clean_data [rowMale, rowFemale]) ≠
        aggregate_spec_order (fun r => r.gender) (clean_data [rowMale, rowFemale]) := by
  have e1 : (groupby_rate (fun r => r.gender)
      (clean_data [rowMale, rowFemale])).map Prod.fst = ["Female", "Male"] := by
    decide
  have e2 : (aggregate_spec_order (fun r => r.gender)
      (clean_data [rowMale, rowFemale])).map Prod.fst = ["Male", "Female"] := by
    decide
  refine ⟨e1, e2, fun h => ?_⟩
  rw [h, e2] at e1
  exact absurd e1 (by decide)

/-- C3 (amended): every grouped churn-rate aggregation returns its groups
with keys in ascending sorted order (`groupby` with its default
`sort=True`), never in order of first appearance; no separate sort_by_rate
operation exists in the code. -/
theorem C3_theorem (key : CleanRow → String) (df : List CleanRow) :
    List.Sorted (fun a b => strLe a b = true)
      ((groupby_rate key df).map Prod.fst) := by
  have hmap : (groupby_rate key df).map Prod.fst = groupbyKeys (df.map key) := by
    simp only [groupby_rate, List.map_map]
    exact List.map_id _
  rw [hmap]
  exact List.sorted_insertionSort _ _

/-! Claim C6: significance flags. -/

/-- C6 counterexample: at p-value 1/100 the t-test and chi-square entries
carry a significance flag, but the two correlation results carry none at
all — the claim's "for every statistical test result" fails for the
correlation analysis. -/
theorem C6_counterexample :
    ((statistical_tests_flags (1 / 100) (1 / 100)).map fun e => e.2) =
      [some true, some true, none, none] := by
  norm_num [statistical_tests_flags, significanceFlag]

/-- C6 (amended): for the mean-difference and independence tests the
significance flag is true iff the p-value is strictly below 0.05 (0.05
itself is not significant); the correlation computations report only a
coefficient and carry no significance flag. -/
theorem C6_theorem (p q : ℚ) :
    (significanceFlag p = true ↔ p < 0.05) ∧
      significanceFlag (0.05 : ℚ) = false ∧
      ((statistical_tests_flags p q).map fun e => e.2.isSome) =
        [true, true, false, false] := by
  refine ⟨?_, ?_, by simp [statistical_tests_flags]⟩
  · simp [significanceFlag]
  · norm_num [significanceFlag]

/-! Claim C7: degenerate samples in the t-test. -/

/-- C7 counterexample: on a Dataset whose churned sample has one
observation the t statistic is the NaN value (`none`) — a returned value,
not an InsufficientSampleError, which the code never raises — while the
chi-square contingency table is still produced. -/
theorem C7_counterexample :
    (statistical_tests_run (clean_data rowsSmallSample)).1 = none ∧
      (statistical_tests_run (clean_data rowsSmallSample)).2 =
        [("Month-to-month", [("No", 0), ("Yes", 1)]),
         ("One year", [("No", 1), ("Yes", 0)]),
         ("Two year", [("No", 1), ("Yes", 0)])] := by
  constructor <;> decide

/-- C7 (amended): the code performs no sample-size check: when either
sample has fewer than 2 observations the t statistic is simply NaN
(`none`) — no InsufficientSampleError exists or is raised — and the
remaining computations (the contingency table) still complete because the
whole stage is a total function. -/
theorem C7_theorem (df : List CleanRow)
    (h : (churnedCharges df).length < 2 ∨ (retainedCharges df).length < 2) :
    (statistical_tests_run df).1 = none ∧
      (statistical_tests_run df).2 = contingencyTable df := by
  refine ⟨?_, rfl⟩
  simp only [statistical_tests_run, ttestStatSq]
  rw [if_pos h]

/-- C7 witness: the amended statement on the small concrete sample. -/
theorem C7_witness :
    (statistical_tests_run (clean_data rowsSmallSample)).1 = none ∧
      (statistical_tests_run (clean_data rowsSmallSample)).2 =
        contingencyTable (clean_data rowsSmallSample) :=
  C7_theorem (clean_data rowsSmallSample) (by decide)

/-! Claim C8: empty Dataset and empty segments. -/

/-- C8 counterexample: on an empty Dataset the churn-rate reporting raises
KeyError (an exception, not an "undefined" sentinel value), the monthly
revenue at risk is the number 0 (not "not applicable"), its percentage is
NaN, and the empty new-customer segment rate is NaN — the string "not
applicable" appears nowhere. -/
theorem C8_counterexample :
    churn_analysis ([] : List CleanRow) = .error "KeyError" ∧
      revenue_at_risk [] = 0 ∧ revenue_pct [] = none ∧
      new_customer_churn [] = none := by
  refine ⟨rfl, rfl, ?_, rfl⟩
  simp [revenue_pct, total_revenue]

/-- C8 (amended): on an empty Dataset the overall-rate reporting raises
KeyError, grouped aggregation returns the empty sequence, the monthly
revenue at risk is 0 with a NaN percentage, and the churn rate over any
empty segment (for example the new-customer segment) is NaN (`none`) —
never the string "not applicable". -/
theorem C8_theorem :
    churn_analysis ([] : List CleanRow) = .error "KeyError" ∧
      groupby_rate (fun r => r.gender) [] = [] ∧
      revenue_at_risk [] = 0 ∧ revenue_pct [] = none ∧
      (∀ df : List CleanRow, (df.filter fun r => r.tenure_months ≤ 12) = [] →
        new_customer_churn df = none) := by
  refine ⟨rfl, rfl, rfl, by simp [revenue_pct, total_revenue], ?_⟩
  intro df h
  simp [new_customer_churn, h, optMean]

/-- C8 witness: the segment clause of the amended statement at a concrete
Dataset whose new-customer segment is empty. -/
theorem C8_witness : new_customer_churn (clean_data [rowOutOfRange]) = none :=
  C8_theorem.2.2.2.2 (clean_data [rowOutOfRange]) (by decide)

/-! Claims C9 and C10: revenue at risk. -/

theorem optMean_mul_length (xs : List ℚ) (h : xs ≠ []) :
    (optMean xs).map (· * (xs.length : ℚ)) = some xs.sum := by
  have h0 : xs.length ≠ 0 := by simpa [List.length_eq_zero] using h
  have hl : (xs.length : ℚ) ≠ 0 := Nat.cast_ne_zero.mpr h0
  simp only [optMean, if_neg h, Option.map_some']
  rw [div_mul_cancel₀ _ hl]

theorem churnedCharges_length (df : List CleanRow) :
    (churnedCharges df).length = churned_count df := by
  simp [churnedCharges, churned_count]

/-- C9 counterexample: on a Dataset whose records are all retained, the
annualized loss of generate_insights is NaN (`none`, the empty-sample mean
propagates), not 12 times the monthly revenue-at-risk sum (which is 0). -/
theorem C9_counterexample :
    annual_revenue_loss (clean_data [rowRetainedOnly]) = none ∧
      annual_revenue_loss (clean_data [rowRetainedOnly]) ≠
        some (revenue_at_risk (clean_data [rowRetainedOnly]) * 12) := by
  have h0 : annual_revenue_loss (clean_data [rowRetainedOnly]) = none := rfl
  refine ⟨h0, ?_⟩
  rw [h0]
  exact fun h => Option.noConfusion h

/-- C9 (amended): whenever at least one record is churned, the monthly
revenue loss (mean times count) equals the direct sum of monthly_charges
over churned records, the annual loss equals that sum times 12, and the
percentage is the monthly sum over the total (times 100), NaN when the
total is 0; on the spec's 4-record example: monthly 160, annual 1920,
percentage 160/220 of the total.  With no churned record both loss figures
are NaN. -/
theorem C9_theorem :
    (∀ df : List CleanRow, churnedCharges df ≠ [] →
        monthly_revenue_loss df = some (revenue_at_risk df) ∧
        annual_revenue_loss df = some (revenue_at_risk df * 12)) ∧
      (∀ df : List CleanRow, total_revenue df = 0 → revenue_pct df = none) ∧
      revenue_at_risk exampleDataset = 160 ∧
      annual_revenue_loss exampleDataset = some 1920 ∧
      revenue_pct exampleDataset = some (160 / 220 * 100) := by
  refine ⟨?_, ?_, ?_, ?_, ?_⟩
  · intro df h
    constructor
    · simp only [monthly_revenue_loss, avg_monthly_churned, revenue_at_risk,
        ← churnedCharges_length]
      exact optMean_mul_length (churnedCharges df) h
    · simp only [annual_revenue_loss, monthly_revenue_loss, avg_monthly_churned,
        revenue_at_risk, ← churnedCharges_length]
      rw [optMean_mul_length (churnedCharges df) h]
      rfl
  · intro df h
    simp [revenue_pct, h]
  · have h : churnedCharges exampleDataset = [70, 90] := by decide
    simp only [revenue_at_risk, h]
    norm_num
  · have h : churnedCharges exampleDataset = [70, 90] := by decide
    have hc : churned_count exampleDataset = 2 := by decide
    simp only [annual_revenue_loss, monthly_revenue_loss, avg_monthly_churned,
      h, hc, optMean]
    norm_num
    exact ⟨80, ⟨by decide, rfl⟩, by norm_num⟩
  · have h : churnedCharges exampleDataset = [70, 90] := by decide
    have ht : exampleDataset.map (fun r => r.monthly_charges) = [70, 40, 90, 20] := by
      decide
    simp only [revenue_pct, total_revenue, revenue_at_risk, h, ht]
    norm_num

/-- C9 witness: the annualization clause of the amended statement on the
4-record example Dataset. -/
theorem C9_witness :
    annual_revenue_loss exampleDataset =
      some (revenue_at_risk exampleDataset * 12) :=
  (C9_theorem.1 exampleDataset (by decide)).2

/-- C10: under exact arithmetic the two monthly revenue-loss computations
agree on every Dataset with at least one churned record: mean times count
equals the direct sum. -/
theorem C10_theorem (df : List CleanRow) (h : churnedCharges df ≠ []) :
    monthly_revenue_loss df = some (revenue_at_risk df) := by
  simp only [monthly_revenue_loss, avg_monthly_churned, revenue_at_risk,
    ← churnedCharges_length]
  exact optMean_mul_length (churnedCharges df) h

/-- C10 witness: the agreement on the 4-record example Dataset. -/
theorem C10_witness :
    monthly_revenue_loss exampleDataset = some (revenue_at_risk exampleDataset) :=
  C10_theorem exampleDataset (by decide)

end ChurnAnalysis
